import Mathlib

/-!
# Reverse IP/DNS API client (`reverse-ip-go`): embedding and properties

A shallow embedding of `options.go`, `models.go` and `reverseip.go`.

* `url.Values` (a Go `map[string][]string`) is a function from keys to the
  optional list of values stored under the key, so that two parameter sets are
  equal exactly when they hold the same values under every key.
* An `Option` of `options.go` is a closure that mutates the parameter set it is
  given; here it is a function from the old parameter set to the new one.
* `Get`, `GetRaw` and `request` return, next to their Go results, the list of
  calls they made to the HTTP client (`Event`), so that "no request was built or
  sent" is the statement that this list is empty.
* The Go standard library functions the package calls and whose tables are not
  part of it (`unicode.ToUpper`, `json.Decoder.Decode`) are the fields of
  `Runtime`.  `net.IP.String` is embedded from the standard library source.
* `client.go` is not part of the embedded sources: the outcome of
  `Client.NewRequest` and `Client.Do` are fields of `Client`, and
  `checkResponse` is modelled from the specification.
-/

set_option autoImplicit false
set_option maxRecDepth 100000
set_option linter.dupNamespace false

namespace ReverseIP

/-! ## `net/url`: parameter sets -/

/-- The type `url.Values`: the values stored under each key, `none` for an absent key. -/
abbrev Values := String → Option (List String)

/-- The empty parameter set `url.Values{}`. -/
def Values.empty : Values := fun _ => none

/-- The method `Values.Set`: sets the key to the single value, replacing any existing values. -/
def Values.Set (v : Values) (key value : String) : Values :=
  fun k => if k = key then some [value] else v k

/-! ## `strings.ToUpper` -/

/-- The ASCII branch of `strings.ToUpper`: `'a'..'z'` are moved down by `'a' - 'A'`. -/
def asciiUpper (c : Char) : Char :=
  if 'a'.toNat ≤ c.toNat ∧ c.toNat ≤ 'z'.toNat then Char.ofNat (c.toNat - ('a'.toNat - 'A'.toNat)) else c

/-- The function `strings.ToUpper`: a string of ASCII characters only is mapped by `asciiUpper`,
any other string by `unicode.ToUpper` (the argument `unicodeToUpper`). -/
def ToUpper (unicodeToUpper : Char → Char) (s : String) : String :=
  if s.data.all (fun c => decide (c.toNat < 128)) then String.mk (s.data.map asciiUpper)
  else String.mk (s.data.map unicodeToUpper)

/-! ## `options.go` -/

/-- The type `Option` of `options.go` (Lean reserves the name `Option`): adds parameters to the query. -/
abbrev RequestOption := Values → Values

/-- The option `OptionOutputFormat`: sets Response output format JSON | XML. -/
def OptionOutputFormat (unicodeToUpper : Char → Char) (outputFormat : String) : RequestOption :=
  fun v => v.Set "outputFormat" (ToUpper unicodeToUpper outputFormat)

/-- The option `OptionFrom`: sets the domain name which is used as an offset for the results. -/
def OptionFrom (value : String) : RequestOption :=
  fun v => v.Set "from" value

/-- The loop `for _, opt := range opts { opt(q) }` of `request`. -/
def applyOptions (opts : List RequestOption) (q : Values) : Values :=
  opts.foldl (fun q opt => opt q) q

/-! ## `models.go` -/

/-- The struct `Result`: a part of the Reverse IP/DNS API response. -/
structure Result where
  Name : String
  FirstSeen : Int
  LastVisit : Int
deriving DecidableEq, Repr

/-- The struct `ReverseIPResponse`: a response of Reverse IP/DNS API. -/
structure ReverseIPResponse where
  Result : List Result
  CurrentPage : String
  Size : Int
deriving DecidableEq, Repr

/-- The struct `ErrorMessage`: the error message. -/
structure ErrorMessage where
  Code : Int
  Message : String
deriving DecidableEq, Repr

/-- The method `ErrorMessage.Error`: `fmt.Sprintf("API error: [%d] %s", e.Code, e.Message)`. -/
def ErrorMessage.Error (e : ErrorMessage) : String :=
  "API error: [" ++ toString e.Code ++ "] " ++ e.Message

/-- The struct `apiResponse` of `reverseip.go`: embeds `ReverseIPResponse` and `ErrorMessage`. -/
structure apiResponse extends ReverseIPResponse, ErrorMessage
deriving DecidableEq, Repr

/-! ## `net.IP.String` (Go standard library, packages `net` and `net/netip`) -/

/-- The type `net.IP`: a slice of bytes; the nil slice and the empty slice are both `[]`. -/
abbrev IP := List UInt8

/-- The constant `hexDigit = "0123456789abcdef"`, indexed. -/
def hexDigit (n : Nat) : Char := "0123456789abcdef".data.getD n '?'

/-- The function `hexString` of `net`: two hexadecimal digits for each byte. -/
def hexString : List UInt8 → List Char
  | [] => []
  | tn :: rest => hexDigit (tn.toNat >>> 4) :: hexDigit (tn.toNat &&& 0xf) :: hexString rest

/-- The constant `digits = "0123456789"` of `net/netip`, indexed. -/
def digits (n : Nat) : Char := "0123456789".data.getD n '?'

/-- The function `appendDecimal` of `net/netip`: a byte in decimal without leading zeros. -/
def appendDecimal (b : List Char) (x : Nat) : List Char :=
  let b := if x ≥ 100 then b ++ [digits (x / 100)] else b
  let b := if x ≥ 10 then b ++ [digits (x / 10 % 10)] else b
  b ++ [digits (x % 10)]

/-- The function `appendHex` of `net/netip`: a 16-bit group without leading zeros. -/
def appendHex (b : List Char) (x : Nat) : List Char :=
  let b := if x ≥ 0x1000 then b ++ [hexDigit (x >>> 12)] else b
  let b := if x ≥ 0x100 then b ++ [hexDigit (x >>> 8 &&& 0xf)] else b
  let b := if x ≥ 0x10 then b ++ [hexDigit (x >>> 4 &&& 0xf)] else b
  b ++ [hexDigit (x &&& 0xf)]

/-- The method `Addr.appendTo4`: dotted decimal notation of four bytes. -/
def appendTo4 (ret : List Char) (p4 : List UInt8) : List Char :=
  let ret := appendDecimal ret (p4.getD 0 0).toNat
  let ret := ret ++ ['.']
  let ret := appendDecimal ret (p4.getD 1 0).toNat
  let ret := ret ++ ['.']
  let ret := appendDecimal ret (p4.getD 2 0).toNat
  let ret := ret ++ ['.']
  appendDecimal ret (p4.getD 3 0).toNat

/-- The method `Addr.v6u16`: the i-th 16-bit group of a 16-byte address, big endian. -/
def v6u16 (ip : List UInt8) (i : Nat) : Nat :=
  ((ip.getD (2 * i) 0).toNat <<< 8) ||| (ip.getD (2 * i + 1) 0).toNat

/-- The inner loop `for j < 8 && ip.v6u16(j) == 0 { j++ }` of `appendTo6`. -/
def zeroRunEnd (ip : List UInt8) : Nat → Nat → Nat
  | 0, j => j
  | fuel + 1, j => if j < 8 ∧ v6u16 ip j = 0 then zeroRunEnd ip fuel (j + 1) else j

/-- The first loop of `appendTo6`: the longest run of at least two zero groups, as
`(zeroStart, zeroEnd)`, both 255 when there is none. -/
def longestZeroRun (ip : List UInt8) : Nat → Nat → Nat × Nat → Nat × Nat
  | 0, _, z => z
  | fuel + 1, i, z =>
    if i < 8 then
      let j := zeroRunEnd ip 8 i
      let l := j - i
      let z := if l ≥ 2 ∧ l > z.2 - z.1 then (i, j) else z
      longestZeroRun ip fuel (i + 1) z
    else z

/-- The second loop of `appendTo6`: the groups separated by colons, the zero run as `::`. -/
def appendGroups (ip : List UInt8) (zeroStart zeroEnd : Nat) : Nat → Nat → List Char → List Char
  | 0, _, ret => ret
  | fuel + 1, i, ret =>
    if i < 8 then
      if i = zeroStart then
        let ret := ret ++ [':', ':']
        let i := zeroEnd
        if i ≥ 8 then ret
        else appendGroups ip zeroStart zeroEnd fuel (i + 1) (appendHex ret (v6u16 ip i))
      else
        let ret := if i > 0 then ret ++ [':'] else ret
        appendGroups ip zeroStart zeroEnd fuel (i + 1) (appendHex ret (v6u16 ip i))
    else ret

/-- The method `Addr.appendTo6` for an address without zone. -/
def appendTo6 (ret : List Char) (ip : List UInt8) : List Char :=
  let z := longestZeroRun ip 8 0 (255, 255)
  appendGroups ip z.1 z.2 8 0 ret

/-- The method `IP.To4`: the 4-byte form of an IPv4 or IPv4-mapped address, `[]` otherwise. -/
def IP.To4 (ip : IP) : IP :=
  if ip.length = 4 then ip
  else if ip.length = 16 ∧ (ip.take 10).all (fun b => b == 0) ∧ ip.getD 10 0 = 0xff ∧ ip.getD 11 0 = 0xff then
    ip.drop 12
  else []

/-- The method `IP.String`: `"<nil>"` for a slice of length 0, `"?"` and the hexadecimal
bytes for a length other than 4 and 16, dotted decimal for IPv4, colon notation for IPv6. -/
def IP.String (ip : IP) : String :=
  if ip.length = 0 then "<nil>"
  else if ip.length ≠ 4 ∧ ip.length ≠ 16 then String.mk ('?' :: hexString ip)
  else if (IP.To4 ip).length = 4 then String.mk (appendTo4 [] (IP.To4 ip))
  else String.mk (appendTo6 [] ip)

/-! ## The HTTP client (`client.go`) as seen from `reverseip.go` -/

/-- The part of `http.Response` that the package reads. -/
structure HttpResponse where
  StatusCode : Int
deriving DecidableEq, Repr

/-- The struct `Response`: the `http.Response` wrapper with Body saved as a byte slice.
The embedded pointer is `none` when it is nil. -/
structure Response where
  Response : Option HttpResponse
  Body : List UInt8
deriving DecidableEq, Repr

/-- The outcome of one call `Client.Do(ctx, req, &b)`: either the error is nil, with the
response and the bytes copied into the buffer, or it is not, with whatever response (possibly
nil) and bytes were obtained before the failure, and the text of the error. -/
inductive DoResult where
  | ok (response : HttpResponse) (body : List UInt8)
  | failed (response : Option HttpResponse) (body : List UInt8) (err : String)
deriving DecidableEq, Repr

/-- The struct `Client` as `reverseip.go` uses it: the API key, the outcome of
`Client.NewRequest(http.MethodGet, baseURL, nil)` (the text of its error, if any), and the
outcome of `Client.Do` on a request with the given query parameters. -/
structure Client where
  apiKey : String
  NewRequest : Option String
  Do : Values → DoResult

/-- The struct `reverseIPServiceOp`: the type implementing the ReverseIP interface. -/
structure reverseIPServiceOp where
  client : Client

/-- The Go standard library functions whose tables are outside the package:
`unicode.ToUpper`, and `json.NewDecoder(bytes.NewReader(raw)).Decode(&response)` as the
decoded value or the text of the decoding error. -/
structure Runtime where
  unicodeToUpper : Char → Char
  jsonDecode : List UInt8 → Except String apiResponse

/-- The calls made to the HTTP client, in order. -/
inductive Event where
  | newRequest
  | send (query : Values)

/-! ## Errors -/

/-- The struct `ArgError`: the argument error. -/
structure ArgError where
  Name : String
  Message : String
deriving DecidableEq, Repr

/-- The method `ArgError.Error`. -/
def ArgError.Error (a : ArgError) : String :=
  "invalid argument: \"" ++ a.Name ++ "\" " ++ a.Message

/-- Modelled from the spec: the error value of `checkResponse`, which lives in `client.go`;
it records the status code of a response outside the success range. -/
structure ErrorResponse where
  StatusCode : Int
deriving DecidableEq, Repr

/-- Modelled from the spec: the text of the status classification error of `client.go`,
"API failed with status code: {code}". -/
def ErrorResponse.Error (e : ErrorResponse) : String :=
  "API failed with status code: " ++ toString e.StatusCode

/-- Modelled from the spec: the function `checkResponse` of `client.go`; any status code
outside the success range [200,299] yields a classification error. -/
def checkResponse (r : HttpResponse) : Option ErrorResponse :=
  if 200 ≤ r.StatusCode ∧ r.StatusCode ≤ 299 then none else some ⟨r.StatusCode⟩

/-- The Go `error` values that `Get` and `GetRaw` return, by dynamic type: `*ArgError`, an
error returned by the client (`Client.NewRequest` or `Client.Do`), the error that `parse`
builds with `fmt.Errorf("cannot parse response: %w", err)`, `*ErrorMessage`, and the error of
`checkResponse`. -/
inductive Error where
  | arg (e : ArgError)
  | client (text : String)
  | parse (cause : String)
  | api (e : ErrorMessage)
  | status (e : ErrorResponse)
deriving DecidableEq, Repr

/-- The method `Error()` of each error value. -/
def Error.Error : Error → String
  | .arg e => e.Error
  | .client text => text
  | .parse cause => "cannot parse response: " ++ cause
  | .api e => e.Error
  | .status e => e.Error

/-! ## `reverseip.go` -/

/-- The method `newRequest`: creates the API request with default parameters and the specified
apiKey; the result is the query of the request. -/
def newRequest (service : reverseIPServiceOp) : Except Error Values × List Event :=
  match service.client.NewRequest with
  | some err => (.error (.client err), [.newRequest])
  | none => (.ok (Values.empty.Set "apiKey" service.client.apiKey), [.newRequest])

/-- The results `(*Response, error)` of `request`: either the error is not nil, next to a
response that may be nil, or it is nil, next to `&Response{Response: resp, Body: b.Bytes()}`
for the response and bytes of a successful `Client.Do`. -/
inductive RequestResult where
  | failed (resp : Option Response) (err : Error)
  | ok (response : HttpResponse) (body : List UInt8)
deriving DecidableEq, Repr

/-- The query parameters of the request that `request` hands to `Client.Do`: the API key,
then the options in order, then the ip. -/
def requestQuery (service : reverseIPServiceOp) (ip : String) (opts : List RequestOption) : Values :=
  let q := Values.empty.Set "apiKey" service.client.apiKey
  let q := applyOptions opts q
  q.Set "ip" ip

/-- The method `request`: returns intermediate API response for further actions. -/
def request (service : reverseIPServiceOp) (ip : String) (opts : List RequestOption) :
    RequestResult × List Event :=
  match newRequest service with
  | (.error err, trace) => (.failed none err, trace)
  | (.ok q, trace) =>
    let q := applyOptions opts q
    let q := q.Set "ip" ip
    match service.client.Do q with
    | .failed resp b err => (.failed (some ⟨resp, b⟩) (.client err), trace ++ [.send q])
    | .ok resp b => (.ok resp b, trace ++ [.send q])

/-- The function `parse`: parses raw Reverse IP/DNS API response. -/
def parse (rt : Runtime) (raw : List UInt8) : Except Error apiResponse :=
  match rt.jsonDecode raw with
  | .error err => .error (.parse err)
  | .ok response => .ok response

/-- The three results of `Get`. -/
structure GetResult where
  reverseIPResponse : Option ReverseIPResponse
  resp : Option Response
  err : Option Error
deriving DecidableEq, Repr

/-- The two results of `GetRaw`. -/
structure GetRawResult where
  resp : Option Response
  err : Option Error
deriving DecidableEq, Repr

/-- The method `Get`: returns parsed Reverse IP/DNS API response. -/
def Get (rt : Runtime) (service : reverseIPServiceOp) (ip : IP) (opts : List RequestOption) :
    GetResult × List Event :=
  let ipString := IP.String ip
  if ipString = "<nil>" then
    (⟨none, none, some (.arg ⟨"ip", "can not be empty"⟩)⟩, [])
  else
    let optsJSON := opts ++ [OptionOutputFormat rt.unicodeToUpper "JSON"]
    match request service ipString optsJSON with
    | (.failed resp err, trace) => (⟨none, resp, some err⟩, trace)
    | (.ok r b, trace) =>
      let resp : Response := ⟨some r, b⟩
      match parse rt resp.Body with
      | .error err => (⟨none, some resp, some err⟩, trace)
      | .ok reverseIPResp =>
        if reverseIPResp.Message ≠ "" ∨ reverseIPResp.Code ≠ 0 then
          (⟨none, none, some (.api ⟨reverseIPResp.Code, reverseIPResp.Message⟩)⟩, trace)
        else
          (⟨some reverseIPResp.toReverseIPResponse, some resp, none⟩, trace)

/-- The method `GetRaw`: returns raw Reverse IP/DNS API response as the Response struct with
Body saved as a byte slice. -/
def GetRaw (service : reverseIPServiceOp) (ip : IP) (opts : List RequestOption) :
    GetRawResult × List Event :=
  let ipString := IP.String ip
  if ipString = "<nil>" then
    (⟨none, some (.arg ⟨"ip", "can not be empty"⟩)⟩, [])
  else
    match request service ipString opts with
    | (.failed resp err, trace) => (⟨resp, some err⟩, trace)
    | (.ok r b, trace) =>
      let resp : Response := ⟨some r, b⟩
      match checkResponse r with
      | some respErr => (⟨some resp, some (.status respErr)⟩, trace)
      | none => (⟨some resp, none⟩, trace)

/-! ## The test server of `client_test.go` -/

/-- The conversion `[]byte(s)` for a string of ASCII characters. -/
def asciiBytes (s : String) : List UInt8 := s.data.map (fun c => UInt8.ofNat c.toNat)

/-- The constant `resp` of the tests: a page of three records. -/
def testResp : List UInt8 := asciiBytes
  ("\x7b\"current_page\":\"0\",\"size\":3,\"result\":[\x7b\"name\":\"iana.com\",\"first_seen\":1570492800,\n" ++
   "\"last_visit\":1657756800\x7d,\x7b\"name\":\"iana.net\",\"first_seen\":1571097600,\"last_visit\":1660780800\x7d,\n" ++
   "\x7b\"name\":\"iana.org\",\"first_seen\":1570147200,\"last_visit\":1657843200\x7d]\x7d")

/-- The constant `respUnparsable` of the tests. -/
def testRespUnparsable : List UInt8 := asciiBytes "<?xml version=\"1.0\" encoding=\"utf-8\"?><>"

/-- The constant `errResp` of the tests. -/
def testErrResp : List UInt8 := asciiBytes "\x7b\"code\":499,\"messages\":\"Test error message.\"\x7d"

/-- A success body whose `size` field is not the number of its records. -/
def testRespSize5 : List UInt8 := asciiBytes "\x7b\"current_page\":\"0\",\"size\":5,\"result\":[]\x7d"

/-- The decoder on the bodies above, with the values `encoding/json` decodes them to; every
other input is answered like the unparsable body. -/
def testDecode (raw : List UInt8) : Except String apiResponse :=
  if raw = testResp then
    .ok ⟨⟨[⟨"iana.com", 1570492800, 1657756800⟩, ⟨"iana.net", 1571097600, 1660780800⟩,
           ⟨"iana.org", 1570147200, 1657843200⟩], "0", 3⟩, ⟨0, ""⟩⟩
  else if raw = testErrResp then .ok ⟨⟨[], "", 0⟩, ⟨499, "Test error message."⟩⟩
  else if raw = testRespSize5 then .ok ⟨⟨[], "0", 5⟩, ⟨0, ""⟩⟩
  else .error "invalid character '<' looking for beginning of value"

/-- The standard library as the tests exercise it; the option values of the tests are ASCII. -/
def testRuntime : Runtime := ⟨fun c => c, testDecode⟩

/-- The function `newAPI` of the tests against a server that answers every request with the
given status code and body. -/
def newAPI (status : Int) (body : List UInt8) : reverseIPServiceOp :=
  ⟨⟨"at_LoremIpsumDolorSitAmetConsect", none, fun _ => .ok ⟨status⟩ body⟩⟩

/-! ## Auxiliary predicates -/

/-- A list of characters that does not start with `<`. -/
def NoLt (l : List Char) : Prop := l.head? ≠ some '<'

/-- The text starts with the given prefix. -/
def HasPrefix (text pre : String) : Prop := ∃ rest : List Char, text.data = pre.data ++ rest

/-! ## The string form of an IP -/

theorem hexDigit_ne_lt (n : Nat) : hexDigit n ≠ '<' := by
  unfold hexDigit
  by_cases h : n < 16
  · interval_cases n <;> decide
  · have : ("0123456789abcdef".data).length ≤ n := by
      have : ("0123456789abcdef".data).length = 16 := by decide
      omega
    rw [List.getD_eq_default _ _ this]
    decide

theorem digits_ne_lt (n : Nat) : digits n ≠ '<' := by
  unfold digits
  by_cases h : n < 10
  · interval_cases n <;> decide
  · have : ("0123456789".data).length ≤ n := by
      have : ("0123456789".data).length = 10 := by decide
      omega
    rw [List.getD_eq_default _ _ this]
    decide

theorem NoLt_nil : NoLt [] := by simp [NoLt]

theorem NoLt_append {b : List Char} (l : List Char) (hb : NoLt b)
    (hl : NoLt l) : NoLt (b ++ l) := by
  cases b with
  | nil => simpa using hl
  | cons a t => simpa [NoLt] using hb

theorem NoLt_snoc {b : List Char} {c : Char} (hb : NoLt b) (hc : c ≠ '<') : NoLt (b ++ [c]) :=
  NoLt_append _ hb (by simpa [NoLt] using hc)

theorem NoLt_appendDecimal {b : List Char} (x : Nat) (hb : NoLt b) : NoLt (appendDecimal b x) := by
  unfold appendDecimal
  simp only
  apply NoLt_snoc _ (digits_ne_lt _)
  split
  · apply NoLt_snoc _ (digits_ne_lt _)
    split
    · exact NoLt_snoc hb (digits_ne_lt _)
    · exact hb
  · split
    · exact NoLt_snoc hb (digits_ne_lt _)
    · exact hb

theorem NoLt_appendHex {b : List Char} (x : Nat) (hb : NoLt b) : NoLt (appendHex b x) := by
  unfold appendHex
  simp only
  apply NoLt_snoc _ (hexDigit_ne_lt _)
  have h1 : NoLt (if x ≥ 0x1000 then b ++ [hexDigit (x >>> 12)] else b) := by
    split
    · exact NoLt_snoc hb (hexDigit_ne_lt _)
    · exact hb
  have h2 : NoLt (if x ≥ 0x100 then
      (if x ≥ 0x1000 then b ++ [hexDigit (x >>> 12)] else b) ++ [hexDigit (x >>> 8 &&& 0xf)]
      else (if x ≥ 0x1000 then b ++ [hexDigit (x >>> 12)] else b)) := by
    split
    · exact NoLt_snoc h1 (hexDigit_ne_lt _)
    · exact h1
  split
  · exact NoLt_snoc h2 (hexDigit_ne_lt _)
  · exact h2

theorem NoLt_appendTo4 (p4 : List UInt8) : NoLt (appendTo4 [] p4) := by
  unfold appendTo4
  simp only
  have dot : ('.' : Char) ≠ '<' := by decide
  exact NoLt_appendDecimal _ (NoLt_snoc (NoLt_appendDecimal _ (NoLt_snoc
    (NoLt_appendDecimal _ (NoLt_snoc (NoLt_appendDecimal _ NoLt_nil) dot)) dot)) dot)

theorem NoLt_appendGroups (ip : List UInt8) (zeroStart zeroEnd : Nat) (fuel : Nat) :
    ∀ (i : Nat) (ret : List Char), NoLt ret → NoLt (appendGroups ip zeroStart zeroEnd fuel i ret) := by
  induction fuel with
  | zero => intro i ret h; simpa [appendGroups] using h
  | succ n ih =>
    intro i ret h
    have colon : (':' : Char) ≠ '<' := by decide
    have h2 : NoLt (ret ++ [':', ':']) := NoLt_append _ h (by simp [NoLt])
    unfold appendGroups
    simp only
    split
    · split
      · split
        · exact h2
        · exact ih _ _ (NoLt_appendHex _ h2)
      · apply ih
        apply NoLt_appendHex
        split
        · exact NoLt_snoc h colon
        · exact h
    · exact h

theorem NoLt_appendTo6 (ip : List UInt8) : NoLt (appendTo6 [] ip) := by
  unfold appendTo6
  exact NoLt_appendGroups ip _ _ 8 0 [] NoLt_nil

theorem mk_ne_nilString {l : List Char} (h : NoLt l) : String.mk l ≠ "<nil>" := by
  intro e
  have : l = "<nil>".data := by rw [← e]
  rw [this] at h
  exact h (by decide)

/-- The string form of an IP is the sentinel `"<nil>"` exactly for the slices of length 0. -/
theorem IP.String_eq_nil_iff (ip : IP) : IP.String ip = "<nil>" ↔ ip = [] := by
  constructor
  · intro h
    by_contra hne
    have hlen : ip.length ≠ 0 := by
      intro h0
      exact hne (List.length_eq_zero.mp h0)
    unfold IP.String at h
    rw [if_neg hlen] at h
    split at h
    · exact mk_ne_nilString (by simp [NoLt]) h
    · split at h
      · exact mk_ne_nilString (NoLt_appendTo4 _) h
      · exact mk_ne_nilString (NoLt_appendTo6 _) h
  · intro h
    subst h
    rfl

theorem IP.String_ne_nil {ip : IP} (h : ip ≠ []) : IP.String ip ≠ "<nil>" :=
  fun e => h ((IP.String_eq_nil_iff ip).mp e)

/-! ## The request -/

theorem ToUpper_JSON (up : Char → Char) : ToUpper up "JSON" = "JSON" := rfl

theorem Values.Set_same (v : Values) (key value : String) : v.Set key value key = some [value] := by
  simp [Values.Set]

theorem Values.Set_other (v : Values) (key value k : String) (h : k ≠ key) :
    v.Set key value k = v k := by
  simp [Values.Set, h]

theorem Values.Set_Set (v : Values) (key a b : String) :
    (v.Set key a).Set key b = v.Set key b := by
  funext k
  by_cases h : k = key <;> simp [Values.Set, h]

theorem applyOptions_append (opts : List RequestOption) (opt : RequestOption) (q : Values) :
    applyOptions (opts ++ [opt]) q = opt (applyOptions opts q) := by
  simp [applyOptions, List.foldl_append]

theorem request_newRequest_failed (service : reverseIPServiceOp) (ip : String)
    (opts : List RequestOption) (err : String) (hnew : service.client.NewRequest = some err) :
    request service ip opts = (.failed none (.client err), [.newRequest]) := by
  simp [request, newRequest, hnew]

theorem request_ok (service : reverseIPServiceOp) (ip : String) (opts : List RequestOption)
    (r : HttpResponse) (b : List UInt8) (hnew : service.client.NewRequest = none)
    (hdo : service.client.Do (requestQuery service ip opts) = .ok r b) :
    request service ip opts = (.ok r b, [.newRequest, .send (requestQuery service ip opts)]) := by
  simp only [requestQuery] at hdo
  simp [request, newRequest, hnew, hdo, requestQuery]

theorem request_failed (service : reverseIPServiceOp) (ip : String) (opts : List RequestOption)
    (r : Option HttpResponse) (b : List UInt8) (err : String)
    (hnew : service.client.NewRequest = none)
    (hdo : service.client.Do (requestQuery service ip opts) = .failed r b err) :
    request service ip opts =
      (.failed (some ⟨r, b⟩) (.client err), [.newRequest, .send (requestQuery service ip opts)]) := by
  simp only [requestQuery] at hdo
  simp [request, newRequest, hnew, hdo, requestQuery]

/-- Every request starts with a call of `Client.NewRequest`, and any query it sends is the one
that `requestQuery` describes. -/
theorem request_trace (service : reverseIPServiceOp) (ip : String) (opts : List RequestOption) :
    (request service ip opts).2 = [.newRequest] ∨
      (request service ip opts).2 = [.newRequest, .send (requestQuery service ip opts)] := by
  cases hnew : service.client.NewRequest with
  | some err => left; rw [request_newRequest_failed _ _ _ _ hnew]
  | none =>
    right
    cases hdo : service.client.Do (requestQuery service ip opts) with
    | ok r b => rw [request_ok _ _ _ _ _ hnew hdo]
    | failed r b err => rw [request_failed _ _ _ _ _ _ hnew hdo]

/-- When `Client.NewRequest` succeeds, `request` builds the request and sends it once, with
the query that `requestQuery` describes. -/
theorem request_trace_of_newRequest (service : reverseIPServiceOp) (ip : String)
    (opts : List RequestOption) (hnew : service.client.NewRequest = none) :
    (request service ip opts).2 = [.newRequest, .send (requestQuery service ip opts)] := by
  cases hdo : service.client.Do (requestQuery service ip opts) with
  | ok r b => rw [request_ok _ _ _ _ _ hnew hdo]
  | failed r b err => rw [request_failed _ _ _ _ _ _ hnew hdo]

/-- Every query that `request` sends carries the ip it was given as its one "ip" value. -/
theorem request_send_ip (service : reverseIPServiceOp) (ip : String)
    (opts : List RequestOption) (q : Values) (hmem : Event.send q ∈ (request service ip opts).2) :
    q "ip" = some [ip] := by
  rcases request_trace service ip opts with h | h
  · rw [h] at hmem
    simp at hmem
  · rw [h] at hmem
    simp at hmem
    rw [hmem]
    simp only [requestQuery, Values.Set_same]

/-- The results of `Get` on a non-empty IP, in terms of the results of `request`. -/
theorem Get_of_ne_nil (rt : Runtime) (service : reverseIPServiceOp) (ip : IP)
    (opts : List RequestOption) (hip : ip ≠ []) :
    Get rt service ip opts =
      match request service (IP.String ip) (opts ++ [OptionOutputFormat rt.unicodeToUpper "JSON"]) with
      | (.failed resp err, trace) => (⟨none, resp, some err⟩, trace)
      | (.ok r b, trace) =>
        match rt.jsonDecode b with
        | .error err => (⟨none, some ⟨some r, b⟩, some (.parse err)⟩, trace)
        | .ok reverseIPResp =>
          if reverseIPResp.Message ≠ "" ∨ reverseIPResp.Code ≠ 0 then
            (⟨none, none, some (.api ⟨reverseIPResp.Code, reverseIPResp.Message⟩)⟩, trace)
          else
            (⟨some reverseIPResp.toReverseIPResponse, some ⟨some r, b⟩, none⟩, trace) := by
  unfold Get
  simp only [if_neg (IP.String_ne_nil hip)]
  split
  · rfl
  · next r b trace _ =>
    cases hd : rt.jsonDecode b <;> simp [parse, hd]

/-- The results of `GetRaw` on a non-empty IP, in terms of the results of `request`. -/
theorem GetRaw_of_ne_nil (service : reverseIPServiceOp) (ip : IP)
    (opts : List RequestOption) (hip : ip ≠ []) :
    GetRaw service ip opts =
      match request service (IP.String ip) opts with
      | (.failed resp err, trace) => (⟨resp, some err⟩, trace)
      | (.ok r b, trace) =>
        match checkResponse r with
        | some respErr => (⟨some ⟨some r, b⟩, some (.status respErr)⟩, trace)
        | none => (⟨some ⟨some r, b⟩, none⟩, trace) := by
  unfold GetRaw
  simp only [if_neg (IP.String_ne_nil hip)]

/-- On a non-empty IP, `Get` makes the client calls of its one call of `request`. -/
theorem Get_trace (rt : Runtime) (service : reverseIPServiceOp) (ip : IP)
    (opts : List RequestOption) (hip : ip ≠ []) :
    (Get rt service ip opts).2 =
      (request service (IP.String ip) (opts ++ [OptionOutputFormat rt.unicodeToUpper "JSON"])).2 := by
  rw [Get_of_ne_nil rt service ip opts hip]
  split
  · next h => rw [h]
  · next r b trace h =>
    rw [h]
    split
    · rfl
    · split <;> rfl

/-- On a non-empty IP, `GetRaw` makes the client calls of its one call of `request`. -/
theorem GetRaw_trace (service : reverseIPServiceOp) (ip : IP)
    (opts : List RequestOption) (hip : ip ≠ []) :
    (GetRaw service ip opts).2 = (request service (IP.String ip) opts).2 := by
  rw [GetRaw_of_ne_nil service ip opts hip]
  split
  · next h => rw [h]
  · next r b trace h =>
    rw [h]
    split <;> rfl

/-- The results of `Get` after a successful transport call. -/
theorem Get_of_ok (rt : Runtime) (service : reverseIPServiceOp) (ip : IP)
    (opts : List RequestOption) (r : HttpResponse) (b : List UInt8) (hip : ip ≠ [])
    (hnew : service.client.NewRequest = none)
    (hdo : service.client.Do (requestQuery service (IP.String ip)
      (opts ++ [OptionOutputFormat rt.unicodeToUpper "JSON"])) = .ok r b) :
    (Get rt service ip opts).1 =
      match rt.jsonDecode b with
      | .error err => ⟨none, some ⟨some r, b⟩, some (.parse err)⟩
      | .ok reverseIPResp =>
        if reverseIPResp.Message ≠ "" ∨ reverseIPResp.Code ≠ 0 then
          ⟨none, none, some (.api ⟨reverseIPResp.Code, reverseIPResp.Message⟩)⟩
        else
          ⟨some reverseIPResp.toReverseIPResponse, some ⟨some r, b⟩, none⟩ := by
  rw [Get_of_ne_nil rt service ip opts hip, request_ok _ _ _ _ _ hnew hdo]
  simp only
  split
  · rfl
  · split <;> rfl

/-- The results of `GetRaw` after a successful transport call. -/
theorem GetRaw_of_ok (service : reverseIPServiceOp) (ip : IP)
    (opts : List RequestOption) (r : HttpResponse) (b : List UInt8) (hip : ip ≠ [])
    (hnew : service.client.NewRequest = none)
    (hdo : service.client.Do (requestQuery service (IP.String ip) opts) = .ok r b) :
    (GetRaw service ip opts).1 =
      match checkResponse r with
      | some respErr => ⟨some ⟨some r, b⟩, some (.status respErr)⟩
      | none => ⟨some ⟨some r, b⟩, none⟩ := by
  rw [GetRaw_of_ne_nil service ip opts hip, request_ok _ _ _ _ _ hnew hdo]
  simp only
  split <;> rfl

/-- `Get` never returns the error of `checkResponse`. -/
theorem Get_err_ne_status (rt : Runtime) (service : reverseIPServiceOp) (ip : IP)
    (opts : List RequestOption) (se : ErrorResponse) :
    (Get rt service ip opts).1.err ≠ some (.status se) := by
  by_cases hip : ip = []
  · subst hip
    simp [Get, IP.String]
  · rw [Get_of_ne_nil rt service ip opts hip]
    cases hnew : service.client.NewRequest with
    | some err => rw [request_newRequest_failed _ _ _ _ hnew]; simp
    | none =>
      cases hdo : service.client.Do (requestQuery service (IP.String ip)
          (opts ++ [OptionOutputFormat rt.unicodeToUpper "JSON"])) with
      | failed r b err => rw [request_failed _ _ _ _ _ _ hnew hdo]; simp
      | ok r b =>
        rw [request_ok _ _ _ _ _ hnew hdo]
        simp only
        split
        · simp
        · split <;> simp

theorem parse_text_not_status (cause : String) :
    ¬ HasPrefix (Error.parse cause).Error "API failed with status code" := by
  rintro ⟨rest, h⟩
  have e1 : "cannot parse response: ".data = 'c' :: "annot parse response: ".data := rfl
  have e2 : "API failed with status code".data = 'A' :: "PI failed with status code".data := rfl
  simp only [Error.Error, String.data_append, e1, e2, List.cons_append, List.cons.injEq] at h
  exact absurd h.1 (by decide)

theorem api_text_not_status (e : ErrorMessage) :
    ¬ HasPrefix (Error.api e).Error "API failed with status code" := by
  rintro ⟨rest, h⟩
  have e1 : "API error: [".data = 'A' :: 'P' :: 'I' :: ' ' :: 'e' :: "rror: [".data := rfl
  have e2 : "API failed with status code".data =
      'A' :: 'P' :: 'I' :: ' ' :: 'f' :: "ailed with status code".data := rfl
  simp only [Error.Error, ErrorMessage.Error, String.data_append, e1, e2, List.cons_append,
    List.cons.injEq] at h
  exact absurd h.2.2.2.2.1 (by decide)

/-- On the empty IP both entry points return the `ArgError` without calling the client. -/
theorem Get_GetRaw_empty (rt : Runtime) (service : reverseIPServiceOp) (opts : List RequestOption) :
    Get rt service [] opts = (⟨none, none, some (.arg ⟨"ip", "can not be empty"⟩)⟩, []) ∧
    GetRaw service [] opts = (⟨none, some (.arg ⟨"ip", "can not be empty"⟩)⟩, []) :=
  ⟨rfl, rfl⟩

/-! ## Claims -/

/-- C1: for an IP argument of length 0 (its string form is `"<nil>"`) and any options, `Get`
returns a nil result, a nil response and an `ArgError`, `GetRaw` returns a nil response and the
same `ArgError`, neither builds or sends a request, and the text of the error is exactly
`invalid argument: "ip" can not be empty`. -/
theorem Get_GetRaw_empty_ip (rt : Runtime) (service : reverseIPServiceOp) (ip : IP)
    (opts : List RequestOption) (h : ip.length = 0) :
    IP.String ip = "<nil>" ∧
    Get rt service ip opts = (⟨none, none, some (.arg ⟨"ip", "can not be empty"⟩)⟩, []) ∧
    GetRaw service ip opts = (⟨none, some (.arg ⟨"ip", "can not be empty"⟩)⟩, []) ∧
    (Error.arg ⟨"ip", "can not be empty"⟩).Error = "invalid argument: \"ip\" can not be empty" := by
  have hnil : ip = [] := List.length_eq_zero.mp h
  subst hnil
  exact ⟨rfl, rfl, rfl, by decide⟩

/-- The empty IP of the tests "invalid argument2": both entry points return the `ArgError`. -/
theorem Get_GetRaw_empty_ip_witness :
    ([] : IP).length = 0 ∧
    Get testRuntime (newAPI 200 testResp) [] [OptionFrom "1"] =
      (⟨none, none, some (.arg ⟨"ip", "can not be empty"⟩)⟩, []) ∧
    GetRaw (newAPI 499 testErrResp) [] [OptionFrom "1"] =
      (⟨none, some (.arg ⟨"ip", "can not be empty"⟩)⟩, []) :=
  ⟨rfl, (Get_GetRaw_empty_ip testRuntime (newAPI 200 testResp) [] [OptionFrom "1"] rfl).2.1,
    (Get_GetRaw_empty_ip testRuntime (newAPI 499 testErrResp) [] [OptionFrom "1"] rfl).2.2.1⟩

/-- C9: options overwrite and never append: `OptionFrom a` then `OptionFrom b` gives the
parameter set of `OptionFrom b` alone, in which "from" holds the one value `b`;
`OptionOutputFormat a` then `OptionOutputFormat b` gives that of `OptionOutputFormat b` alone,
in which "outputFormat" holds the one value `ToUpper b`; applying the same option twice is
applying it once. -/
theorem Option_last_write_wins (up : Char → Char) (v : Values) (a b : String) :
    OptionFrom b (OptionFrom a v) = OptionFrom b v ∧
    OptionFrom b (OptionFrom a v) "from" = some [b] ∧
    OptionOutputFormat up b (OptionOutputFormat up a v) = OptionOutputFormat up b v ∧
    OptionOutputFormat up b (OptionOutputFormat up a v) "outputFormat" = some [ToUpper up b] ∧
    OptionFrom a (OptionFrom a v) = OptionFrom a v ∧
    OptionOutputFormat up a (OptionOutputFormat up a v) = OptionOutputFormat up a v := by
  refine ⟨?_, ?_, ?_, ?_, ?_, ?_⟩
  · exact Values.Set_Set v "from" a b
  · exact Values.Set_same _ "from" b
  · exact Values.Set_Set v "outputFormat" _ _
  · exact Values.Set_same _ "outputFormat" _
  · exact Values.Set_Set v "from" a a
  · exact Values.Set_Set v "outputFormat" _ _

/-- C10: options on distinct keys commute and touch only their own key: `OptionFrom a` then
`OptionOutputFormat b` gives the same parameter set as the other order, `OptionFrom` leaves
every key other than "from" as it was, `OptionOutputFormat` every key other than
"outputFormat", and both preserve "apiKey". -/
theorem Options_commute (up : Char → Char) (v : Values) (a b : String) :
    OptionOutputFormat up b (OptionFrom a v) = OptionFrom a (OptionOutputFormat up b v) ∧
    (∀ k : String, k ≠ "from" → OptionFrom a v k = v k) ∧
    (∀ k : String, k ≠ "outputFormat" → OptionOutputFormat up b v k = v k) ∧
    OptionFrom a v "apiKey" = v "apiKey" ∧
    OptionOutputFormat up b v "apiKey" = v "apiKey" := by
  refine ⟨?_, ?_, ?_, ?_, ?_⟩
  · funext k
    by_cases h1 : k = "outputFormat"
    · subst h1
      simp [OptionOutputFormat, OptionFrom, Values.Set]
    · by_cases h2 : k = "from" <;> simp [OptionOutputFormat, OptionFrom, Values.Set, h1, h2]
  · intro k hk
    exact Values.Set_other v "from" a k hk
  · intro k hk
    exact Values.Set_other v "outputFormat" _ k hk
  · exact Values.Set_other v "from" a "apiKey" (by decide)
  · exact Values.Set_other v "outputFormat" _ "apiKey" (by decide)

/-- C2: for a non-empty IP and a transport call that succeeded with a body that decodes to an
envelope with code `c` and message `m`: if `m` is non-empty or `c` is non-zero, `Get` returns a
nil result and the `ErrorMessage` whose text is exactly "API error: [c] m"; otherwise `Get`
returns a nil error and the decoded result list, current page and size. -/
theorem Get_envelope (rt : Runtime) (service : reverseIPServiceOp) (ip : IP)
    (opts : List RequestOption) (r : HttpResponse) (b : List UInt8) (response : apiResponse)
    (hip : ip ≠ []) (hnew : service.client.NewRequest = none)
    (hdo : service.client.Do (requestQuery service (IP.String ip)
      (opts ++ [OptionOutputFormat rt.unicodeToUpper "JSON"])) = .ok r b)
    (hdec : rt.jsonDecode b = .ok response) :
    ((response.Message ≠ "" ∨ response.Code ≠ 0) →
      (Get rt service ip opts).1.reverseIPResponse = none ∧
      (Get rt service ip opts).1.err = some (.api ⟨response.Code, response.Message⟩) ∧
      (Error.api ⟨response.Code, response.Message⟩).Error =
        "API error: [" ++ toString response.Code ++ "] " ++ response.Message) ∧
    ((response.Message = "" ∧ response.Code = 0) →
      (Get rt service ip opts).1.err = none ∧
      (Get rt service ip opts).1.reverseIPResponse =
        some ⟨response.Result, response.CurrentPage, response.Size⟩) := by
  rw [Get_of_ok rt service ip opts r b hip hnew hdo, hdec]
  dsimp only
  constructor
  · intro h
    rw [if_pos h]
    exact ⟨rfl, rfl, rfl⟩
  · intro h
    have hn : ¬ (response.Message ≠ "" ∨ response.Code ≠ 0) := by
      rintro (h1 | h1)
      · exact h1 h.1
      · exact h1 h.2
    rw [if_neg hn]
    exact ⟨rfl, rfl⟩

/-- The tests "could not process request" and "successful request" of `TestReverseIPGet`. -/
theorem Get_envelope_witness :
    ((Get testRuntime (newAPI 499 testErrResp) [8, 8, 8, 8] [OptionFrom "1"]).1.reverseIPResponse = none ∧
      (Get testRuntime (newAPI 499 testErrResp) [8, 8, 8, 8] [OptionFrom "1"]).1.err =
        some (.api ⟨499, "Test error message."⟩) ∧
      (Error.api ⟨499, "Test error message."⟩).Error = "API error: [499] Test error message.") ∧
    ((Get testRuntime (newAPI 200 testResp) [8, 8, 8, 8] [OptionFrom "1"]).1.err = none ∧
      (Get testRuntime (newAPI 200 testResp) [8, 8, 8, 8] [OptionFrom "1"]).1.reverseIPResponse =
        some ⟨[⟨"iana.com", 1570492800, 1657756800⟩, ⟨"iana.net", 1571097600, 1660780800⟩,
          ⟨"iana.org", 1570147200, 1657843200⟩], "0", 3⟩) :=
  ⟨(Get_envelope testRuntime (newAPI 499 testErrResp) [8, 8, 8, 8] [OptionFrom "1"] ⟨499⟩
      testErrResp ⟨⟨[], "", 0⟩, ⟨499, "Test error message."⟩⟩ (by decide) rfl rfl rfl).1
      (Or.inr (by decide)),
    (Get_envelope testRuntime (newAPI 200 testResp) [8, 8, 8, 8] [OptionFrom "1"] ⟨200⟩
      testResp ⟨⟨[⟨"iana.com", 1570492800, 1657756800⟩, ⟨"iana.net", 1571097600, 1660780800⟩,
          ⟨"iana.org", 1570147200, 1657843200⟩], "0", 3⟩, ⟨0, ""⟩⟩ (by decide) rfl rfl
      rfl).2 ⟨rfl, rfl⟩⟩

/-- C3: for a non-empty IP and a transport call that succeeded with status code `s` and body
`b`, `GetRaw` returns the response carrying exactly `b` whatever `s` is, with a nil error when
200 <= s <= 299 and otherwise with the error whose text is exactly
"API failed with status code: s"; `GetRaw` is given no decoder: the body is never decoded. -/
theorem GetRaw_status (service : reverseIPServiceOp) (ip : IP) (opts : List RequestOption)
    (s : Int) (b : List UInt8) (hip : ip ≠ []) (hnew : service.client.NewRequest = none)
    (hdo : service.client.Do (requestQuery service (IP.String ip) opts) = .ok ⟨s⟩ b) :
    (GetRaw service ip opts).1.resp = some ⟨some ⟨s⟩, b⟩ ∧
    ((200 ≤ s ∧ s ≤ 299) → (GetRaw service ip opts).1.err = none) ∧
    (¬ (200 ≤ s ∧ s ≤ 299) →
      (GetRaw service ip opts).1.err = some (.status ⟨s⟩) ∧
      (Error.status ⟨s⟩).Error = "API failed with status code: " ++ toString s) := by
  rw [GetRaw_of_ok service ip opts ⟨s⟩ b hip hnew hdo]
  by_cases h : 200 ≤ s ∧ s ≤ 299
  · simp [checkResponse, h]
  · simp [checkResponse, h, Error.Error, ErrorResponse.Error]

/-- The tests "non 200 status code" and "successful request" of `TestReverseIPGetRaw`. -/
theorem GetRaw_status_witness :
    (GetRaw (newAPI 500 testRespUnparsable) [8, 8, 8, 8] [OptionFrom "1"]).1.resp =
      some ⟨some ⟨500⟩, testRespUnparsable⟩ ∧
    (GetRaw (newAPI 500 testRespUnparsable) [8, 8, 8, 8] [OptionFrom "1"]).1.err =
      some (.status ⟨500⟩) ∧
    (Error.status ⟨500⟩).Error = "API failed with status code: 500" ∧
    (GetRaw (newAPI 200 testResp) [8, 8, 8, 8] [OptionFrom "1"]).1.err = none :=
  ⟨(GetRaw_status (newAPI 500 testRespUnparsable) [8, 8, 8, 8] [OptionFrom "1"] 500
      testRespUnparsable (by decide) rfl rfl).1,
    ((GetRaw_status (newAPI 500 testRespUnparsable) [8, 8, 8, 8] [OptionFrom "1"] 500
      testRespUnparsable (by decide) rfl rfl).2.2 (by decide)).1,
    ((GetRaw_status (newAPI 500 testRespUnparsable) [8, 8, 8, 8] [OptionFrom "1"] 500
      testRespUnparsable (by decide) rfl rfl).2.2 (by decide)).2,
    (GetRaw_status (newAPI 200 testResp) [8, 8, 8, 8] [OptionFrom "1"] 200
      testResp (by decide) rfl rfl).2.1 (by decide)⟩

/-- C4: `Get` never classifies by HTTP status: for a non-empty IP and two transport calls that
succeeded with the same body and any status codes, `Get` returns the same result and the same
error; a body that decodes to an error envelope yields the embedded `ErrorMessage` and an
undecodable body the error "cannot parse response: ..." whatever the status is; the error of
such a call never starts with "API failed with status code", and on no input at all does
`Get` return the error of the status classification. -/
theorem Get_ignores_status (rt : Runtime) (service₁ service₂ : reverseIPServiceOp) (ip : IP)
    (opts : List RequestOption) (r₁ r₂ : HttpResponse) (b : List UInt8) (hip : ip ≠ [])
    (hnew₁ : service₁.client.NewRequest = none) (hnew₂ : service₂.client.NewRequest = none)
    (hdo₁ : service₁.client.Do (requestQuery service₁ (IP.String ip)
      (opts ++ [OptionOutputFormat rt.unicodeToUpper "JSON"])) = .ok r₁ b)
    (hdo₂ : service₂.client.Do (requestQuery service₂ (IP.String ip)
      (opts ++ [OptionOutputFormat rt.unicodeToUpper "JSON"])) = .ok r₂ b) :
    (Get rt service₁ ip opts).1.reverseIPResponse = (Get rt service₂ ip opts).1.reverseIPResponse ∧
    (Get rt service₁ ip opts).1.err = (Get rt service₂ ip opts).1.err ∧
    (∀ response : apiResponse, rt.jsonDecode b = .ok response →
      (response.Message ≠ "" ∨ response.Code ≠ 0) →
      (Get rt service₁ ip opts).1.err = some (.api ⟨response.Code, response.Message⟩)) ∧
    (∀ cause : String, rt.jsonDecode b = .error cause →
      (Get rt service₁ ip opts).1.err = some (.parse cause) ∧
      (Error.parse cause).Error = "cannot parse response: " ++ cause) ∧
    (∀ e : Error, (Get rt service₁ ip opts).1.err = some e →
      ¬ HasPrefix e.Error "API failed with status code") ∧
    (∀ (service : reverseIPServiceOp) (ip' : IP) (opts' : List RequestOption) (se : ErrorResponse),
      (Get rt service ip' opts').1.err ≠ some (.status se)) := by
  rw [Get_of_ok rt service₁ ip opts r₁ b hip hnew₁ hdo₁,
    Get_of_ok rt service₂ ip opts r₂ b hip hnew₂ hdo₂]
  refine ⟨?_, ?_, ?_, ?_, ?_, ?_⟩
  · cases hd : rt.jsonDecode b with
    | error cause => rfl
    | ok response =>
      dsimp only
      split <;> rfl
  · cases hd : rt.jsonDecode b with
    | error cause => rfl
    | ok response =>
      dsimp only
      split <;> rfl
  · intro response hd h
    rw [hd]
    dsimp only
    rw [if_pos h]
  · intro cause hd
    rw [hd]
    exact ⟨rfl, rfl⟩
  · intro e he
    cases hd : rt.jsonDecode b with
    | error cause =>
      rw [hd] at he
      dsimp only at he
      cases he
      exact parse_text_not_status cause
    | ok response =>
      rw [hd] at he
      dsimp only at he
      split at he
      · cases he
        exact api_text_not_status _
      · cases he
  · intro service ip' opts' se
    exact Get_err_ne_status rt service ip' opts' se

/-- The error envelope under the statuses 499 and 200, and the unparsable body under 500. -/
theorem Get_ignores_status_witness :
    (Get testRuntime (newAPI 499 testErrResp) [8, 8, 8, 8] [OptionFrom "1"]).1.err =
      (Get testRuntime (newAPI 200 testErrResp) [8, 8, 8, 8] [OptionFrom "1"]).1.err ∧
    (Get testRuntime (newAPI 499 testErrResp) [8, 8, 8, 8] [OptionFrom "1"]).1.err =
      some (.api ⟨499, "Test error message."⟩) ∧
    (Get testRuntime (newAPI 500 testRespUnparsable) [8, 8, 8, 8] [OptionFrom "1"]).1.err =
      some (.parse "invalid character '<' looking for beginning of value") :=
  ⟨(Get_ignores_status testRuntime (newAPI 499 testErrResp) (newAPI 200 testErrResp) [8, 8, 8, 8]
      [OptionFrom "1"] ⟨499⟩ ⟨200⟩ testErrResp (by decide) rfl rfl rfl rfl).2.1,
    (Get_ignores_status testRuntime (newAPI 499 testErrResp) (newAPI 200 testErrResp) [8, 8, 8, 8]
      [OptionFrom "1"] ⟨499⟩ ⟨200⟩ testErrResp (by decide) rfl rfl rfl rfl).2.2.1
      ⟨⟨[], "", 0⟩, ⟨499, "Test error message."⟩⟩ rfl (Or.inr (by decide)),
    ((Get_ignores_status testRuntime (newAPI 500 testRespUnparsable) (newAPI 200 testRespUnparsable)
      [8, 8, 8, 8] [OptionFrom "1"] ⟨500⟩ ⟨200⟩ testRespUnparsable (by decide) rfl rfl rfl
      rfl).2.2.2.1 "invalid character '<' looking for beginning of value" rfl).1⟩

/-- C5: for a non-empty IP and any list of caller options, every request that `Get` sends has
"outputFormat" equal to the single value "JSON", and when the request can be built it is sent
with the parameters obtained from the API key by the caller options in list order, then
`OptionOutputFormat("JSON")`, then the ip. -/
theorem Get_forces_JSON (rt : Runtime) (service : reverseIPServiceOp) (ip : IP)
    (opts : List RequestOption) (hip : ip ≠ []) :
    (∀ q : Values, Event.send q ∈ (Get rt service ip opts).2 → q "outputFormat" = some ["JSON"]) ∧
    (service.client.NewRequest = none →
      (Get rt service ip opts).2 = [.newRequest, .send
        ((OptionOutputFormat rt.unicodeToUpper "JSON"
          (applyOptions opts (Values.empty.Set "apiKey" service.client.apiKey))).Set "ip"
            (IP.String ip))]) := by
  have hq : requestQuery service (IP.String ip)
      (opts ++ [OptionOutputFormat rt.unicodeToUpper "JSON"]) =
      (OptionOutputFormat rt.unicodeToUpper "JSON"
        (applyOptions opts (Values.empty.Set "apiKey" service.client.apiKey))).Set "ip"
          (IP.String ip) := by
    simp only [requestQuery, applyOptions_append]
  have hfmt : requestQuery service (IP.String ip)
      (opts ++ [OptionOutputFormat rt.unicodeToUpper "JSON"]) "outputFormat" = some ["JSON"] := by
    rw [hq, Values.Set_other _ "ip" _ "outputFormat" (by decide)]
    simp only [OptionOutputFormat, Values.Set_same, ToUpper_JSON]
  rw [Get_trace rt service ip opts hip]
  constructor
  · intro q hmem
    rcases request_trace service (IP.String ip)
        (opts ++ [OptionOutputFormat rt.unicodeToUpper "JSON"]) with h | h
    · rw [h] at hmem
      simp at hmem
    · rw [h] at hmem
      simp at hmem
      rw [hmem]
      exact hfmt
  · intro hnew
    rcases request_trace service (IP.String ip)
        (opts ++ [OptionOutputFormat rt.unicodeToUpper "JSON"]) with h | h
    · rw [request] at h
      simp [newRequest, hnew] at h
      split at h <;> simp at h
    · rw [h, hq]

/-- The call of `GetData` in the example: the caller asks for XML and the request says JSON. -/
theorem Get_forces_JSON_witness :
    (Get testRuntime (newAPI 200 testResp) [8, 8, 8, 8]
        [OptionOutputFormat testRuntime.unicodeToUpper "XML"]).2 =
      [.newRequest, .send
        ((OptionOutputFormat testRuntime.unicodeToUpper "JSON"
          (applyOptions [OptionOutputFormat testRuntime.unicodeToUpper "XML"]
            (Values.empty.Set "apiKey" "at_LoremIpsumDolorSitAmetConsect"))).Set "ip"
              (IP.String [8, 8, 8, 8]))] ∧
    ((OptionOutputFormat testRuntime.unicodeToUpper "JSON"
          (applyOptions [OptionOutputFormat testRuntime.unicodeToUpper "XML"]
            (Values.empty.Set "apiKey" "at_LoremIpsumDolorSitAmetConsect"))).Set "ip"
              (IP.String [8, 8, 8, 8])) "outputFormat" = some ["JSON"] :=
  ⟨(Get_forces_JSON testRuntime (newAPI 200 testResp) [8, 8, 8, 8]
      [OptionOutputFormat testRuntime.unicodeToUpper "XML"] (by decide)).2 rfl, by decide⟩

/-- C6 fails as stated: the test server answers 499 with the error envelope, the transport
reads the body, and `Get` returns the `ErrorMessage` next to a nil response. -/
theorem Get_error_envelope_nil_response :
    (newAPI 499 testErrResp).client.Do (requestQuery (newAPI 499 testErrResp)
      (IP.String [8, 8, 8, 8]) [OptionFrom "1", OptionOutputFormat testRuntime.unicodeToUpper "JSON"]) =
        .ok ⟨499⟩ testErrResp ∧
    (Get testRuntime (newAPI 499 testErrResp) [8, 8, 8, 8] [OptionFrom "1"]).1 =
      ⟨none, none, some (.api ⟨499, "Test error message."⟩)⟩ :=
  ⟨rfl, by decide⟩

/-- C6, amended: when the transport read the response body during a `Get` call, `Get` returns
the response carrying those bytes if the body fails to parse (and if the call succeeds); if
the body parses to an error envelope (non-empty message or non-zero code), `Get` returns a nil
response next to the `ErrorMessage`. -/
theorem Get_response_after_read (rt : Runtime) (service : reverseIPServiceOp) (ip : IP)
    (opts : List RequestOption) (r : HttpResponse) (b : List UInt8) (hip : ip ≠ [])
    (hnew : service.client.NewRequest = none)
    (hdo : service.client.Do (requestQuery service (IP.String ip)
      (opts ++ [OptionOutputFormat rt.unicodeToUpper "JSON"])) = .ok r b) :
    (∀ cause : String, rt.jsonDecode b = .error cause →
      (Get rt service ip opts).1.err = some (.parse cause) ∧
      (Get rt service ip opts).1.resp = some ⟨some r, b⟩) ∧
    (∀ response : apiResponse, rt.jsonDecode b = .ok response →
      (response.Message = "" ∧ response.Code = 0) →
      (Get rt service ip opts).1.err = none ∧
      (Get rt service ip opts).1.resp = some ⟨some r, b⟩) ∧
    (∀ response : apiResponse, rt.jsonDecode b = .ok response →
      (response.Message ≠ "" ∨ response.Code ≠ 0) →
      (Get rt service ip opts).1.err = some (.api ⟨response.Code, response.Message⟩) ∧
      (Get rt service ip opts).1.resp = none) := by
  rw [Get_of_ok rt service ip opts r b hip hnew hdo]
  refine ⟨?_, ?_, ?_⟩
  · intro cause hd
    rw [hd]
    exact ⟨rfl, rfl⟩
  · intro response hd h
    have hn : ¬ (response.Message ≠ "" ∨ response.Code ≠ 0) := by
      rintro (h1 | h1)
      · exact h1 h.1
      · exact h1 h.2
    rw [hd]
    dsimp only
    rw [if_neg hn]
    exact ⟨rfl, rfl⟩
  · intro response hd h
    rw [hd]
    dsimp only
    rw [if_pos h]
    exact ⟨rfl, rfl⟩

/-- The unparsable body comes back with the parse error, the error envelope does not. -/
theorem Get_response_after_read_witness :
    ((Get testRuntime (newAPI 500 testRespUnparsable) [8, 8, 8, 8] [OptionFrom "1"]).1.err =
        some (.parse "invalid character '<' looking for beginning of value") ∧
      (Get testRuntime (newAPI 500 testRespUnparsable) [8, 8, 8, 8] [OptionFrom "1"]).1.resp =
        some ⟨some ⟨500⟩, testRespUnparsable⟩) ∧
    ((Get testRuntime (newAPI 499 testErrResp) [8, 8, 8, 8] [OptionFrom "1"]).1.err =
        some (.api ⟨499, "Test error message."⟩) ∧
      (Get testRuntime (newAPI 499 testErrResp) [8, 8, 8, 8] [OptionFrom "1"]).1.resp = none) :=
  ⟨(Get_response_after_read testRuntime (newAPI 500 testRespUnparsable) [8, 8, 8, 8]
      [OptionFrom "1"] ⟨500⟩ testRespUnparsable (by decide) rfl rfl).1
      "invalid character '<' looking for beginning of value" rfl,
    (Get_response_after_read testRuntime (newAPI 499 testErrResp) [8, 8, 8, 8]
      [OptionFrom "1"] ⟨499⟩ testErrResp (by decide) rfl rfl).2.2
      ⟨⟨[], "", 0⟩, ⟨499, "Test error message."⟩⟩ rfl (Or.inr (by decide))⟩

/-- C7 fails as stated: the 3-byte IP {8,8,8} is neither empty, nor of length 4 or 16; its
string form is "?080808", the request is built and sent, and `Get` returns the error envelope
of the server and `GetRaw` the status error, not an `ArgError`. -/
theorem invalid_ip_is_sent :
    ([8, 8, 8] : IP).length ≠ 4 ∧ ([8, 8, 8] : IP).length ≠ 16 ∧
    IP.String [8, 8, 8] = "?080808" ∧
    (Get testRuntime (newAPI 499 testErrResp) [8, 8, 8] [OptionFrom "1"]).1.err =
      some (.api ⟨499, "Test error message."⟩) ∧
    (Get testRuntime (newAPI 499 testErrResp) [8, 8, 8] [OptionFrom "1"]).2.length = 2 ∧
    (GetRaw (newAPI 499 testErrResp) [8, 8, 8] [OptionFrom "1"]).1.err = some (.status ⟨499⟩) ∧
    (GetRaw (newAPI 499 testErrResp) [8, 8, 8] [OptionFrom "1"]).2.length = 2 := by
  decide

/-- C7, amended: `Get` and `GetRaw` return an `ArgError` exactly for the empty IP argument,
and then before any I/O; every non-empty IP, also one whose length is neither 4 nor 16, is
not rejected: `Get` and `GetRaw` build the request first, every request they send has the
string form of the IP as its one ip parameter, the request is sent whenever it could be built,
and for such a length the string form is "?" followed by the bytes in hexadecimal. -/
theorem ArgError_iff_empty (rt : Runtime) (service : reverseIPServiceOp) (ip : IP)
    (opts : List RequestOption) :
    ((∃ a : ArgError, (Get rt service ip opts).1.err = some (.arg a)) ↔ ip = []) ∧
    ((∃ a : ArgError, (GetRaw service ip opts).1.err = some (.arg a)) ↔ ip = []) ∧
    ((Get rt service ip opts).2 = [] ↔ ip = []) ∧
    ((GetRaw service ip opts).2 = [] ↔ ip = []) ∧
    (ip ≠ [] → (Get rt service ip opts).2.head? = some .newRequest ∧
      (GetRaw service ip opts).2.head? = some .newRequest ∧
      (∀ q : Values, Event.send q ∈ (Get rt service ip opts).2 → q "ip" = some [IP.String ip]) ∧
      (∀ q : Values, Event.send q ∈ (GetRaw service ip opts).2 → q "ip" = some [IP.String ip]) ∧
      (service.client.NewRequest = none →
        (Get rt service ip opts).2 = [.newRequest, .send
          ((OptionOutputFormat rt.unicodeToUpper "JSON"
            (applyOptions opts (Values.empty.Set "apiKey" service.client.apiKey))).Set "ip"
              (IP.String ip))] ∧
        (GetRaw service ip opts).2 = [.newRequest, .send
          ((applyOptions opts (Values.empty.Set "apiKey" service.client.apiKey)).Set "ip"
            (IP.String ip))])) ∧
    (ip ≠ [] → ip.length ≠ 4 → ip.length ≠ 16 → IP.String ip = String.mk ('?' :: hexString ip)) := by
  have hreq : ∀ opts' : List RequestOption,
      (request service (IP.String ip) opts').2.head? = some .newRequest ∧
      ∀ a : ArgError, ∀ resp : Option Response,
        (request service (IP.String ip) opts').1 ≠ .failed resp (.arg a) := by
    intro opts'
    cases hnew : service.client.NewRequest with
    | some err => rw [request_newRequest_failed _ _ _ _ hnew]; simp
    | none =>
      cases hdo : service.client.Do (requestQuery service (IP.String ip) opts') with
      | failed r b err => rw [request_failed _ _ _ _ _ _ hnew hdo]; simp
      | ok r b => rw [request_ok _ _ _ _ _ hnew hdo]; simp
  have hget : ip ≠ [] → ∀ a : ArgError, (Get rt service ip opts).1.err ≠ some (.arg a) := by
    intro hip a
    have h1 := (hreq (opts ++ [OptionOutputFormat rt.unicodeToUpper "JSON"])).2 a
    rw [Get_of_ne_nil rt service ip opts hip]
    split
    · next resp err trace h =>
      rw [h] at h1
      intro he
      simp only [Option.some.injEq] at he
      subst he
      exact h1 resp rfl
    · split
      · simp
      · split <;> simp
  have hraw : ip ≠ [] → ∀ a : ArgError, (GetRaw service ip opts).1.err ≠ some (.arg a) := by
    intro hip a
    have h1 := (hreq opts).2 a
    rw [GetRaw_of_ne_nil service ip opts hip]
    split
    · next resp err trace h =>
      rw [h] at h1
      intro he
      simp only [Option.some.injEq] at he
      subst he
      exact h1 resp rfl
    · split <;> simp
  have hempty := Get_GetRaw_empty rt service opts
  refine ⟨?_, ?_, ?_, ?_, ?_, ?_⟩
  · constructor
    · rintro ⟨a, ha⟩
      by_contra hip
      exact hget hip a ha
    · intro h
      subst h
      exact ⟨_, congrArg (fun x => x.1.err) hempty.1⟩
  · constructor
    · rintro ⟨a, ha⟩
      by_contra hip
      exact hraw hip a ha
    · intro h
      subst h
      exact ⟨_, congrArg (fun x => x.1.err) hempty.2⟩
  · constructor
    · intro h
      by_contra hip
      have h2 := (hreq (opts ++ [OptionOutputFormat rt.unicodeToUpper "JSON"])).1
      rw [← Get_trace rt service ip opts hip, h] at h2
      simp at h2
    · intro h
      subst h
      exact congrArg (fun x => x.2) hempty.1
  · constructor
    · intro h
      by_contra hip
      have h2 := (hreq opts).1
      rw [← GetRaw_trace service ip opts hip, h] at h2
      simp at h2
    · intro h
      subst h
      exact congrArg (fun x => x.2) hempty.2
  · intro hip
    refine ⟨?_, ?_, ?_, ?_, ?_⟩
    · rw [Get_trace rt service ip opts hip]
      exact (hreq _).1
    · rw [GetRaw_trace service ip opts hip]
      exact (hreq _).1
    · intro q hmem
      rw [Get_trace rt service ip opts hip] at hmem
      exact request_send_ip service (IP.String ip) _ q hmem
    · intro q hmem
      rw [GetRaw_trace service ip opts hip] at hmem
      exact request_send_ip service (IP.String ip) _ q hmem
    · intro hnew
      rw [Get_trace rt service ip opts hip, GetRaw_trace service ip opts hip,
        request_trace_of_newRequest _ _ _ hnew, request_trace_of_newRequest _ _ _ hnew]
      rw [requestQuery, requestQuery, applyOptions_append]
      exact ⟨rfl, rfl⟩
  · intro hip h4 h16
    have hlen : ip.length ≠ 0 := fun h0 => hip (List.length_eq_zero.mp h0)
    simp [IP.String, hlen, h4, h16]

/-- The 3-byte IP of the test "invalid argument1": not rejected; `Get` and `GetRaw` build the
request and send it with the ip parameter "?080808". -/
theorem ArgError_iff_empty_witness :
    ((Get testRuntime (newAPI 499 testErrResp) [8, 8, 8] [OptionFrom "1"]).2 =
        [.newRequest, .send
          ((OptionOutputFormat testRuntime.unicodeToUpper "JSON"
            (applyOptions [OptionFrom "1"]
              (Values.empty.Set "apiKey" "at_LoremIpsumDolorSitAmetConsect"))).Set "ip"
                (IP.String [8, 8, 8]))] ∧
      (GetRaw (newAPI 499 testErrResp) [8, 8, 8] [OptionFrom "1"]).2 =
        [.newRequest, .send
          ((applyOptions [OptionFrom "1"]
            (Values.empty.Set "apiKey" "at_LoremIpsumDolorSitAmetConsect")).Set "ip"
              (IP.String [8, 8, 8]))]) ∧
    ((OptionOutputFormat testRuntime.unicodeToUpper "JSON"
        (applyOptions [OptionFrom "1"]
          (Values.empty.Set "apiKey" "at_LoremIpsumDolorSitAmetConsect"))).Set "ip"
            (IP.String [8, 8, 8])) "ip" = some ["?080808"] ∧
    ((applyOptions [OptionFrom "1"]
        (Values.empty.Set "apiKey" "at_LoremIpsumDolorSitAmetConsect")).Set "ip"
          (IP.String [8, 8, 8])) "ip" = some ["?080808"] ∧
    IP.String [8, 8, 8] = String.mk ('?' :: hexString [8, 8, 8]) :=
  ⟨((ArgError_iff_empty testRuntime (newAPI 499 testErrResp) [8, 8, 8] [OptionFrom "1"]).2.2.2.2.1
      (by decide)).2.2.2.2 rfl,
    by decide, by decide,
    (ArgError_iff_empty testRuntime (newAPI 499 testErrResp) [8, 8, 8] [OptionFrom "1"]).2.2.2.2.2
      (by decide) (by decide) (by decide)⟩

/-- C8 fails as stated: for the success body with "size":5 and an empty "result" list, `Get`
returns a result whose list has length 0 and whose size is 5. -/
theorem Get_size_not_length :
    (Get testRuntime (newAPI 200 testRespSize5) [8, 8, 8, 8] [OptionFrom "1"]).1 =
      ⟨some ⟨[], "0", 5⟩, some ⟨some ⟨200⟩, testRespSize5⟩, none⟩ ∧
    ((⟨[], "0", 5⟩ : ReverseIPResponse).Result.length : Int) ≠ (⟨[], "0", 5⟩ : ReverseIPResponse).Size := by
  decide

/-- C8, amended: for a non-empty IP and a received body that decodes to a success envelope
(empty message, zero code), `Get` returns the decoded result list, current page and size
unchanged, so len(Result) = Size holds for the returned value exactly when it holds for the
decoded envelope, and in that case the index Size-1 is in bounds whenever Size >= 1. -/
theorem Get_returns_decoded_page (rt : Runtime) (service : reverseIPServiceOp) (ip : IP)
    (opts : List RequestOption) (r : HttpResponse) (b : List UInt8) (response : apiResponse)
    (hip : ip ≠ []) (hnew : service.client.NewRequest = none)
    (hdo : service.client.Do (requestQuery service (IP.String ip)
      (opts ++ [OptionOutputFormat rt.unicodeToUpper "JSON"])) = .ok r b)
    (hdec : rt.jsonDecode b = .ok response)
    (hmsg : response.Message = "") (hcode : response.Code = 0) :
    ∃ res : ReverseIPResponse, (Get rt service ip opts).1.reverseIPResponse = some res ∧
      res.Result = response.Result ∧ res.CurrentPage = response.CurrentPage ∧
      res.Size = response.Size ∧
      (((res.Result.length : Int) = res.Size) ↔ ((response.Result.length : Int) = response.Size)) ∧
      (((response.Result.length : Int) = response.Size) → 1 ≤ res.Size →
        (res.Size - 1).toNat < res.Result.length) := by
  have hn : ¬ (response.Message ≠ "" ∨ response.Code ≠ 0) := by
    rintro (h1 | h1)
    · exact h1 hmsg
    · exact h1 hcode
  refine ⟨response.toReverseIPResponse, ?_, rfl, rfl, rfl, Iff.rfl, ?_⟩
  · rw [Get_of_ok rt service ip opts r b hip hnew hdo, hdec]
    dsimp only
    rw [if_neg hn]
  · intro hlen hsize
    omega

/-- The page of three records of the test "successful request". -/
theorem Get_returns_decoded_page_witness :
    ∃ res : ReverseIPResponse,
      (Get testRuntime (newAPI 200 testResp) [8, 8, 8, 8] [OptionFrom "1"]).1.reverseIPResponse =
        some res ∧
      res.Result = [⟨"iana.com", 1570492800, 1657756800⟩, ⟨"iana.net", 1571097600, 1660780800⟩,
          ⟨"iana.org", 1570147200, 1657843200⟩] ∧ res.CurrentPage = "0" ∧ res.Size = 3 :=
  (Get_returns_decoded_page testRuntime (newAPI 200 testResp) [8, 8, 8, 8] [OptionFrom "1"] ⟨200⟩
    testResp ⟨⟨[⟨"iana.com", 1570492800, 1657756800⟩, ⟨"iana.net", 1571097600, 1660780800⟩,
      ⟨"iana.org", 1570147200, 1657843200⟩], "0", 3⟩, ⟨0, ""⟩⟩ (by decide) rfl rfl rfl rfl rfl).imp
    (fun _ h => ⟨h.1, h.2.1, h.2.2.1, h.2.2.2.1⟩)

end ReverseIP
